import Mathlib

/-!
# Shallow embedding of `packages/coreutils/src/settingregistry.ts`

This file embeds the `SettingRegistry` class and its helpers as pure Lean
functions over an explicit registry state.  JavaScript objects used as string
maps (`Object.create(null)`) are modelled as association lists
`List (String × α)`; property lookup, assignment and `delete` become `getA`,
`setA` and `delA`.  JSON values are modelled by the inductive `JSONValue`,
and JavaScript truthiness (used by the source in `bundle && bundle[level] &&
bundle[level][key] || null` and in `if (!bundle[level])`) by
`JSONValue.truthy`.  Promises are modelled by outcome inductives: each
operation either resolves immediately, or reports which asynchronous
continuation the source chains (`load`-then-retry, fetch from the datastore,
wait on the readiness gate, or a pending `_save`).  A separate
reference-heap model captures the fact that JavaScript stores object values
by reference when `set` executes `bundle[level][key] = value`.
-/

set_option autoImplicit false

/-- JSON-like values (`JSONValue` from `@phosphor/coreutils`): null, boolean,
number (modelled as `Int`), string, array, object. -/
inductive JSONValue where
  | null
  | bool (b : Bool)
  | num (n : Int)
  | str (s : String)
  | arr (elems : List JSONValue)
  | obj (fields : List (String × JSONValue))
deriving Repr

/-- JavaScript truthiness of a JSON value: `null`, `false`, `0` and `""` are
falsy; arrays and objects (even empty ones) are truthy. -/
def JSONValue.truthy : JSONValue → Bool
  | .null => false
  | .bool b => b
  | .num n => n != 0
  | .str s => s != ""
  | .arr _ => true
  | .obj _ => true

/-- `JSONExt.deepCopy`: a structural copy.  On pure value trees a structural
copy is the value itself; the aliasing behaviour that `deepCopy` protects
against is modelled separately by the reference-heap model below. -/
def JSONExt.deepCopy {α : Type} (v : α) : α := v

/-- Property lookup on a JavaScript object used as a string map
(`obj[key]`, `key in obj`): first matching key, `none` when absent. -/
def getA {α : Type} : List (String × α) → String → Option α
  | [], _ => none
  | (k', v) :: rest, k => if k' = k then some v else getA rest k

/-- Property assignment `obj[key] = value`: overwrite the existing binding or
append a new one. -/
def setA {α : Type} : List (String × α) → String → α → List (String × α)
  | [], k, v => [(k, v)]
  | (k', v') :: rest, k, v =>
    if k' = k then (k, v) :: rest else (k', v') :: setA rest k v

/-- Property deletion `delete obj[key]`. -/
def delA {α : Type} : List (String × α) → String → List (String × α)
  | [], _ => []
  | (k', v') :: rest, k =>
    if k' = k then delA rest k else (k', v') :: delA rest k

/-- The setting level: user or system (`ISettingRegistry.Level`). -/
inductive Level where
  | user
  | system
deriving DecidableEq, Repr

/-- `const LEVEL: ISettingRegistry.Level = 'user'` — the default level used
when a request leaves the level unspecified. -/
def LEVEL : Level := Level.user

/-- One level's `{ [key: string]: JSONValue }` map. -/
abbrev KeyMap := List (String × JSONValue)

/-- `ISettingRegistry.Bundle`: a map from level to an optional key map.  The
source allows a level entry to be absent or explicitly `null`; both are falsy
and are treated identically by every operation in this file, so both are
modelled as `none`. -/
structure Bundle where
  user : Option KeyMap
  system : Option KeyMap
deriving Repr

/-- Read `bundle[level]`. -/
def Bundle.get (b : Bundle) : Level → Option KeyMap
  | Level.user => b.user
  | Level.system => b.system

/-- Write `bundle[level] = m`. -/
def Bundle.set (b : Bundle) (level : Level) (m : Option KeyMap) : Bundle :=
  match level with
  | Level.user => { b with user := m }
  | Level.system => { b with system := m }

/-- `ISettingRegistry.IAnnotation` (named `Annot` here): display metadata for
one setting. -/
structure Annot where
  caption : Option String
  className : Option String
  iconClass : Option String
  iconLabel : Option String
  label : Option String
deriving Repr

/-- A per-plugin table mapping setting key to its display metadata. -/
abbrev AnnotTable := List (String × Annot)

/-- `ISettingRegistry.IPlugin`: the persisted settings record for one plugin.
`data` is `Bundle | null`; `none` models `null`. -/
structure IPlugin where
  id : String
  data : Option Bundle
deriving Repr

/-- The content handed to a `Settings` view by `load`: a deep copy of the
plugin record with the current per-plugin metadata table copied onto its
`annotations` property (`content.annotations = copy(annotations[plugin] ||
null)`, modelled as an `Option`, `none` for `null`). -/
structure SettingsView where
  plugin : String
  content : IPlugin
  annots : Option AnnotTable
deriving Repr

/-- The private state of a `SettingRegistry` instance:
`_plugins`, `_annotations` (named `annots`), `_datastore` (identified by an
opaque tag, `none` when not yet attached), `_ready` (whether the readiness
promise has resolved) and the log of `_pluginChanged` emissions in order. -/
structure RegistryState where
  plugins : List (String × IPlugin)
  annots : List (String × AnnotTable)
  datastore : Option Nat
  ready : Bool
  emitted : List String
deriving Repr

namespace SettingRegistry

/-- Outcome of `get`: either the promise resolves with a value, or the source
chains `this.load(plugin).then(() => this.get(plugin, key, level))`. -/
inductive GetOutcome where
  | resolved (value : JSONValue)
  | loadThenRetry (plugin key : String) (level : Level)
deriving Repr

/-- `SettingRegistry.get` (lines 212–221).  When the plugin is cached the
value is `bundle && bundle[level] && bundle[level][key] || null`: any falsy
link in the chain — `data` null, level mapping absent/null, key absent, or a
falsy stored value — yields `null`; the result is
`Promise.resolve(JSONExt.deepCopy(value))`.  When the plugin is not cached
the source loads it and retries with the same arguments. -/
def get (st : RegistryState) (plugin key : String) (level : Level) : GetOutcome :=
  match getA st.plugins plugin with
  | some record =>
    let value : JSONValue :=
      match record.data with
      | none => JSONValue.null
      | some bundle =>
        match bundle.get level with
        | none => JSONValue.null
        | some keymap =>
          match getA keymap key with
          | none => JSONValue.null
          | some v => if v.truthy then v else JSONValue.null
    GetOutcome.resolved (JSONExt.deepCopy value)
  | none => GetOutcome.loadThenRetry plugin key level

/-- Outcome of `load`: resolve with a view (cached branch), fetch from the
datastore (continued by `loadFetchContinue`), or wait on the readiness gate
and then retry with the recorded arguments.  The source's gate branch is
`this._ready.promise.then(() => this.load(plugin))`, so the recorded retry
reload flag is the parameter default `false`, not the original argument. -/
inductive LoadOutcome where
  | resolved (view : SettingsView)
  | fetchFromDatastore (plugin : String)
  | waitReadyThenRetry (plugin : String) (reload : Bool)
deriving Repr

/-- `SettingRegistry.load` (lines 232–267).  If `reload` is false and the
plugin is cached, resolve with a copy of the cached record overlaid with the
current metadata table.  Otherwise fetch when a datastore is attached, else
wait on the readiness gate. -/
def load (st : RegistryState) (plugin : String) (reload : Bool) : LoadOutcome :=
  match reload, getA st.plugins plugin with
  | false, some record =>
    LoadOutcome.resolved
      { plugin := plugin
        content := JSONExt.deepCopy record
        annots := JSONExt.deepCopy (getA st.annots plugin) }
  | _, _ =>
    if st.datastore.isSome then
      LoadOutcome.fetchFromDatastore plugin
    else
      LoadOutcome.waitReadyThenRetry plugin false

/-- The continuation of `load`'s fetch branch (lines 251–262): install the
fetched record into the cache under `result.id`, and build the view from a
copy of the result overlaid with the current metadata table for the
requested plugin. -/
def loadFetchContinue (st : RegistryState) (plugin : String) (result : IPlugin) :
    RegistryState × SettingsView :=
  ({ st with plugins := setA st.plugins result.id result },
   { plugin := plugin
     content := JSONExt.deepCopy result
     annots := JSONExt.deepCopy (getA st.annots plugin) })

/-- Outcome of `set`: load-then-retry with the same arguments when the plugin
is not cached; a `TypeError` when the cached record's `data` is `null` (the
source dereferences it in `if (!bundle[level])`); otherwise the cache is
mutated and `_save(plugin)` is pending. -/
inductive SetOutcome where
  | loadThenRetry (plugin key : String) (value : JSONValue) (level : Level)
  | typeError
  | pendingSave (plugin : String)
deriving Repr

/-- `SettingRegistry.set` (lines 309–322).  On a cached plugin: create the
level's key map if it is absent or null (`if (!bundle[level]) bundle[level] =
{}`), assign `bundle[level][key] = value`, then return `_save(plugin)`.  The
cache mutation happens before the save completes. -/
def set (st : RegistryState) (plugin key : String) (value : JSONValue) (level : Level) :
    RegistryState × SetOutcome :=
  match getA st.plugins plugin with
  | none => (st, SetOutcome.loadThenRetry plugin key value level)
  | some record =>
    match record.data with
    | none => (st, SetOutcome.typeError)
    | some bundle =>
      let keymap := (bundle.get level).getD []
      let bundle' := bundle.set level (some (setA keymap key value))
      let record' := { record with data := some bundle' }
      ({ st with plugins := setA st.plugins plugin record' },
       SetOutcome.pendingSave plugin)

/-- Outcome of `remove`: resolve immediately as a no-op, throw a `TypeError`
on a null `data` bundle, or mutate the cache and leave `_save` pending. -/
inductive RemoveOutcome where
  | noopResolved
  | typeError
  | pendingSave (plugin : String)
deriving Repr

/-- `SettingRegistry.remove` (lines 280–293).  Not cached: resolve with no
side effect.  Cached with `data` null: `bundle[level]` throws a `TypeError`.
Level mapping absent/null: resolve with no side effect.  Otherwise `delete
bundle[level][key]` and return `_save(plugin)`. -/
def remove (st : RegistryState) (plugin key : String) (level : Level) :
    RegistryState × RemoveOutcome :=
  match getA st.plugins plugin with
  | none => (st, RemoveOutcome.noopResolved)
  | some record =>
    match record.data with
    | none => (st, RemoveOutcome.typeError)
    | some bundle =>
      match bundle.get level with
      | none => (st, RemoveOutcome.noopResolved)
      | some keymap =>
        let bundle' := bundle.set level (some (delA keymap key))
        let record' := { record with data := some bundle' }
        ({ st with plugins := setA st.plugins plugin record' },
         RemoveOutcome.pendingSave plugin)

/-- `SettingRegistry.annotate` (lines 193–199): create the per-plugin table
on first use, overwrite the entry for `key`, and emit `_pluginChanged` with
the plugin id.  No datastore interaction and no change to `_plugins`. -/
def annotate (st : RegistryState) (plugin key : String) (a : Annot) : RegistryState :=
  let table := (getA st.annots plugin).getD []
  { st with
      annots := setA st.annots plugin (setA table key a)
      emitted := st.emitted ++ [plugin] }

/-- `SettingRegistry.setDB` (lines 336–343): throws when a datastore is
already attached (before any mutation, so the state is unchanged); otherwise
binds the datastore and resolves the readiness promise. -/
def setDB (st : RegistryState) (datastore : Nat) : RegistryState × Except String Unit :=
  if st.datastore.isSome then
    (st, Except.error "Setting registry already has a datastore.")
  else
    ({ st with datastore := some datastore, ready := true }, Except.ok ())

/-- `SettingRegistry.upload` (lines 352–355): install the record into the
cache under `plugin.id`, then return `_save(plugin.id)`; the returned string
is the plugin id handed to `_save`. -/
def upload (st : RegistryState) (plugin : IPlugin) : RegistryState × String :=
  ({ st with plugins := setA st.plugins plugin.id plugin }, plugin.id)

/-- The completion of `_save(plugin)` (lines 360–363):
`this._datastore.save(plugin, this._plugins[plugin]).then(() => {
this._pluginChanged.emit(plugin); })`.  On a successful save the registry
emits the plugin id; on a failed save the rejection propagates unchanged (the
error type `ε` is arbitrary and the error value is returned as-is) and no
emission or further state change happens — in particular the cache mutation
already performed by the caller is not rolled back. -/
def saveComplete {ε : Type} (st : RegistryState) (plugin : String)
    (saveResult : Except ε Unit) : RegistryState × Except ε Unit :=
  match saveResult with
  | Except.ok _ => ({ st with emitted := st.emitted ++ [plugin] }, Except.ok ())
  | Except.error e => (st, Except.error e)

/-- The notifications observed by a subscriber of `pluginChanged` that
subscribed when the emission log had length `i`: exactly the emissions that
happen after that point (the signal has no replay or history). -/
def notificationsSince (st : RegistryState) (i : Nat) : List String :=
  st.emitted.drop i

end SettingRegistry

/-!
## Reference-heap model of `bundle[level][key] = value`

In JavaScript, objects are stored by reference.  Line 319 of the source
(`bundle[level][key] = value`) therefore stores a reference to the caller's
value object, and `JSONExt.deepCopy` at line 217 copies whatever that
reference points at when `get` runs.  The model below makes the reference
explicit: a heap of value objects indexed by `Nat`, and a key map whose
entries are references into that heap.  Mutating the caller's object is a
heap update; `getRefKey` reproduces `get`'s value computation over the
reference-holding key map.
-/

/-- A heap of JavaScript value objects, indexed by reference. -/
abbrev Heap := List JSONValue

/-- A key map whose stored values are references into the heap, as produced
by `bundle[level][key] = value` on object values. -/
abbrev RefKeyMap := List (String × Nat)

/-- `bundle[level][key] = value` over the reference model: store the
reference. -/
def setRefKey (m : RefKeyMap) (k : String) (r : Nat) : RefKeyMap := setA m k r

/-- `get`'s value computation (lines 215–217) over the reference model:
resolve the stored reference against the current heap, apply the `|| null`
truthiness coercion, and deep-copy the value found there at read time. -/
def getRefKey (heap : Heap) (m : RefKeyMap) (k : String) : JSONValue :=
  match getA m k with
  | none => JSONValue.null
  | some r =>
    match heap[r]? with
    | none => JSONValue.null
    | some v => if v.truthy then JSONExt.deepCopy v else JSONValue.null

/-!
## Example registry states used by witnesses and counterexamples
-/

/-- A registry state with plugin `"p"` cached and an empty data bundle, used
by the C1 theorems. -/
def stC1 : RegistryState :=
  { plugins := [("p", { id := "p", data := some { user := none, system := none } })]
    annots := []
    datastore := some 0
    ready := true
    emitted := [] }

/-- A registry state with one cached plugin whose user-level mapping is empty,
used to exercise `get` on an absent key. -/
def stC2 : RegistryState :=
  { plugins := [("p", { id := "p", data := some { user := some [], system := none } })]
    annots := []
    datastore := some 0
    ready := true
    emitted := [] }

/-- An empty registry state with no datastore attached, used by the C3
theorems. -/
def stC3 : RegistryState :=
  { plugins := []
    annots := []
    datastore := none
    ready := false
    emitted := [] }

/-- An empty registry state with no datastore attached, used by the C4
witness. -/
def stC4 : RegistryState :=
  { plugins := []
    annots := []
    datastore := none
    ready := false
    emitted := [] }

/-- A registry state with plugin `"p"` cached and `("k", 1)` stored at the
user level, used by the C5 witness. -/
def stC5 : RegistryState :=
  { plugins := [("p", { id := "p"
                        data := some { user := some [("k", JSONValue.num 1)], system := none } })]
    annots := []
    datastore := some 0
    ready := true
    emitted := [] }

/-- A registry state with plugin `"p"` cached holding `{"k": 7}` at the user
level, used by the C6 witness. -/
def stC6 : RegistryState :=
  { plugins := [("p", { id := "p"
                        data := some { user := some [("k", JSONValue.num 7)], system := none } })]
    annots := []
    datastore := some 0
    ready := true
    emitted := [] }

/-- An example display metadata value used by witnesses. -/
def exampleAnnot : Annot :=
  { caption := some "c"
    className := none
    iconClass := none
    iconLabel := none
    label := some "l" }

/-- An empty registry state with a datastore attached, used by the C7
witness: the plugin being annotated has never been loaded. -/
def stC7 : RegistryState :=
  { plugins := []
    annots := []
    datastore := some 0
    ready := true
    emitted := [] }

/-- An empty registry state with a datastore attached (plugin `"p"` is not
cached), used by the C8 theorems. -/
def stC8 : RegistryState :=
  { plugins := []
    annots := []
    datastore := some 0
    ready := true
    emitted := [] }

/-- A registry state with plugin `"p"` cached, a user-level mapping present,
and no system-level mapping, used by the C8 witness. -/
def stC8b : RegistryState :=
  { plugins := [("p", { id := "p"
                        data := some { user := some [("k", JSONValue.num 3)], system := none } })]
    annots := []
    datastore := some 0
    ready := true
    emitted := [] }

/-- The record the datastore returns for `"p"` in the C8 counterexample: it
holds the value `"x"` for `"k"` at the user level. -/
def recC8 : IPlugin :=
  { id := "p"
    data := some { user := some [("k", JSONValue.str "x")], system := none } }

/-- An empty registry state with a datastore attached (plugin `"p"` is not
cached), used by the C9 counterexample. -/
def stC9 : RegistryState :=
  { plugins := []
    annots := []
    datastore := some 0
    ready := true
    emitted := [] }

/-- A registry state with plugin `"p"` cached and `("k", 1)` stored at the
user level, used by the C9 witness. -/
def stC9b : RegistryState :=
  { plugins := [("p", { id := "p"
                        data := some { user := some [("k", JSONValue.num 1)], system := none } })]
    annots := []
    datastore := some 0
    ready := true
    emitted := [] }

/-- A registry state whose cached record for `"p"` has a null `data` bundle
(a shape `IPlugin` permits), used by the C10 witness. -/
def stC10 : RegistryState :=
  { plugins := [("p", { id := "p", data := none })]
    annots := []
    datastore := some 0
    ready := true
    emitted := [] }

/-!
## Helper lemmas about the string-map operations
-/

theorem getA_setA_self {α : Type} (m : List (String × α)) (k : String) (v : α) :
    getA (setA m k v) k = some v := by
  induction m with
  | nil => simp [getA, setA]
  | cons hd tl ih =>
    obtain ⟨k', v'⟩ := hd
    by_cases h : k' = k
    · simp [setA, h, getA]
    · simp [setA, h, getA, ih]

theorem Bundle.get_set_self (b : Bundle) (level : Level) (m : Option KeyMap) :
    (b.set level m).get level = m := by
  cases level <;> rfl

theorem drop_length_append {α : Type} (l xs : List α) :
    (l ++ xs).drop l.length = xs := by
  simp

/-!
## Claim theorems
-/

/-- Claim C2: for every cached plugin id `p`, key `k`, and level, `get`
resolves with `null` whenever the record's data bundle is null, the level
mapping is absent, or the key is absent at that level; absence is represented
as a resolved `null` value, never as an error (the cached branch of `get` has
no failing path). -/
theorem C2_get_absent_resolves_null (st : RegistryState) (p k : String) (level : Level)
    (record : IPlugin) (h : getA st.plugins p = some record)
    (habs : record.data = none ∨
      (∃ b, record.data = some b ∧ b.get level = none) ∨
      (∃ b m, record.data = some b ∧ b.get level = some m ∧ getA m k = none)) :
    SettingRegistry.get st p k level
      = SettingRegistry.GetOutcome.resolved JSONValue.null := by
  unfold SettingRegistry.get
  rw [h]
  rcases habs with hd | ⟨b, hd, hl⟩ | ⟨b, m, hd, hl, hk⟩
  · simp [hd, JSONExt.deepCopy]
  · simp [hd, hl, JSONExt.deepCopy]
  · simp [hd, hl, hk, JSONExt.deepCopy]

/-- Witness for C2: in `stC2` the key `"k"` is absent at the user level and
`get` resolves with `null`. -/
theorem C2_get_absent_resolves_null_witness :
    SettingRegistry.get stC2 "p" "k" Level.user
      = SettingRegistry.GetOutcome.resolved JSONValue.null :=
  C2_get_absent_resolves_null stC2 "p" "k" Level.user
    { id := "p", data := some { user := some [], system := none } }
    (by simp [stC2, getA])
    (Or.inr (Or.inr ⟨{ user := some [], system := none }, [], rfl, rfl, rfl⟩))

/-- Claim C1 (amended): for every plugin id `p` cached with a non-null data
bundle, key `k`, level, and truthy JSON value `v`, `set(p, k, v, level)`
mutates the cache and leaves a save pending, and a following
`get(p, k, level)` (no intervening remove and no mutation of the original
value) resolves with a value deep-equal to `v`.  Falsy values (`false`, `0`,
`""`) are excluded: `get` coerces them to `null` (see the counterexample),
and because `set` stores the caller's object by reference, mutating the
original after `set` changes what later reads return. -/
theorem C1_set_get_roundtrip_truthy (st : RegistryState) (p k : String) (v : JSONValue)
    (level : Level) (record : IPlugin) (bundle : Bundle)
    (hc : getA st.plugins p = some record) (hd : record.data = some bundle)
    (ht : v.truthy = true) :
    SettingRegistry.get (SettingRegistry.set st p k v level).1 p k level
      = SettingRegistry.GetOutcome.resolved v ∧
    (SettingRegistry.set st p k v level).2
      = SettingRegistry.SetOutcome.pendingSave p := by
  constructor
  · simp only [SettingRegistry.set, hc, hd]
    unfold SettingRegistry.get
    simp [getA_setA_self, Bundle.get_set_self, ht, JSONExt.deepCopy]
  · simp [SettingRegistry.set, hc, hd]

/-- Witness for C1 (amended): storing the truthy value `12` for
`("p", "fontSize")` at the user level and reading it back yields `12`. -/
theorem C1_set_get_roundtrip_truthy_witness :
    SettingRegistry.get
        (SettingRegistry.set stC1 "p" "fontSize" (JSONValue.num 12) Level.user).1
        "p" "fontSize" Level.user
      = SettingRegistry.GetOutcome.resolved (JSONValue.num 12) ∧
    (SettingRegistry.set stC1 "p" "fontSize" (JSONValue.num 12) Level.user).2
      = SettingRegistry.SetOutcome.pendingSave "p" :=
  C1_set_get_roundtrip_truthy stC1 "p" "fontSize" (JSONValue.num 12) Level.user
    { id := "p", data := some { user := none, system := none } }
    { user := none, system := none }
    (by simp [stC1, getA]) rfl rfl

/-- Counterexample to C1 as stated.  (a) Falsy values are not round-tripped:
after `set(p, k, false, user)` on `stC1`, `get(p, k, user)` resolves with
`null`, not `false`, because line 215 coerces falsy stored values with `||
null`.  (b) Values are not independent of later caller mutation: in the
reference model, `set` stores the caller's object by reference (heap cell 0);
while the heap still holds `{a: 1}` a read returns `{a: 1}`, but after the
caller mutates the object to `{a: 2}` the same read returns `{a: 2}`. -/
theorem C1_counterexample :
    SettingRegistry.get
        (SettingRegistry.set stC1 "p" "k" (JSONValue.bool false) Level.user).1
        "p" "k" Level.user
      = SettingRegistry.GetOutcome.resolved JSONValue.null ∧
    (SettingRegistry.set stC1 "p" "k" (JSONValue.bool false) Level.user).2
      = SettingRegistry.SetOutcome.pendingSave "p" ∧
    JSONValue.null ≠ JSONValue.bool false ∧
    getRefKey [JSONValue.obj [("a", JSONValue.num 1)]] (setRefKey [] "k" 0) "k"
      = JSONValue.obj [("a", JSONValue.num 1)] ∧
    getRefKey [JSONValue.obj [("a", JSONValue.num 2)]] (setRefKey [] "k" 0) "k"
      = JSONValue.obj [("a", JSONValue.num 2)] ∧
    JSONValue.obj [("a", JSONValue.num 2)] ≠ JSONValue.obj [("a", JSONValue.num 1)] := by
  refine ⟨rfl, rfl, ?_, rfl, rfl, ?_⟩ <;> simp

/-- Claim C3 (amended): while no datastore is attached, `load(p, reload)` for
an uncached `p` (or any `p` when `reload` is true) suspends on the readiness
gate — it does not resolve until `setDB` is called — and `get(p, k, level)`
on an uncached plugin chains into `load` and therefore also suspends.  Once
the gate opens, `load` is retried with the same plugin id but with `reload`
reset to its default `false`: the original reload flag is not preserved
(line 266 is `this.load(plugin)`). -/
theorem C3_gate_pending_retry (st : RegistryState) (p : String)
    (hds : st.datastore = none) (hnc : getA st.plugins p = none) :
    (∀ reload : Bool, SettingRegistry.load st p reload
      = SettingRegistry.LoadOutcome.waitReadyThenRetry p false) ∧
    (∀ (k : String) (level : Level), SettingRegistry.get st p k level
      = SettingRegistry.GetOutcome.loadThenRetry p k level) := by
  constructor
  · intro reload
    cases reload <;> simp [SettingRegistry.load, hnc, hds]
  · intro k level
    unfold SettingRegistry.get
    rw [hnc]

/-- Witness for C3 (amended): in the empty, unattached state both `load` and
`get` suspend, and the recorded retry uses `reload = false`. -/
theorem C3_gate_pending_retry_witness :
    SettingRegistry.load stC3 "p" true
      = SettingRegistry.LoadOutcome.waitReadyThenRetry "p" false ∧
    SettingRegistry.get stC3 "p" "k" Level.user
      = SettingRegistry.GetOutcome.loadThenRetry "p" "k" Level.user :=
  ⟨(C3_gate_pending_retry stC3 "p" rfl rfl).1 true,
   (C3_gate_pending_retry stC3 "p" rfl rfl).2 "k" Level.user⟩

/-- Counterexample to C3 as stated: calling `load("p", true)` with no
datastore attached records a retry whose reload flag is `false`, not the
original `true` — the source retries `this.load(plugin)` and the flag falls
back to the parameter default. -/
theorem C3_counterexample :
    SettingRegistry.load stC3 "p" true
      = SettingRegistry.LoadOutcome.waitReadyThenRetry "p" false ∧
    false ≠ true := by
  exact ⟨rfl, by simp⟩

/-- Claim C4: `setDB` succeeds exactly when no datastore is attached; a
second call throws before any mutation, leaving the first attachment (the
whole state) unchanged; and a successful first call binds the datastore and
resolves the readiness gate so pending operations may proceed. -/
theorem C4_setDB_attach_once (st : RegistryState) (ds : Nat) :
    ((SettingRegistry.setDB st ds).2 = Except.ok () ↔ st.datastore = none) ∧
    (st.datastore.isSome →
      SettingRegistry.setDB st ds
        = (st, Except.error "Setting registry already has a datastore.")) ∧
    (st.datastore = none →
      SettingRegistry.setDB st ds
        = ({ st with datastore := some ds, ready := true }, Except.ok ())) := by
  rcases h : st.datastore with _ | d <;> simp [SettingRegistry.setDB, h]

/-- Witness for C4: a first attach on the empty state succeeds and opens the
gate; a second attach on the resulting state throws and leaves the state
(hence the first attachment) unchanged. -/
theorem C4_setDB_attach_once_witness :
    SettingRegistry.setDB stC4 0
      = ({ stC4 with datastore := some 0, ready := true }, Except.ok ()) ∧
    SettingRegistry.setDB { stC4 with datastore := some 0, ready := true } 1
      = ({ stC4 with datastore := some 0, ready := true },
         Except.error "Setting registry already has a datastore.") :=
  ⟨(C4_setDB_attach_once stC4 0).2.2 rfl,
   (C4_setDB_attach_once { stC4 with datastore := some 0, ready := true } 1).2.1 rfl⟩

/-- Claim C5: when the datastore save behind `_save` fails, the failure
value propagates to the caller unchanged (same error type and value, not
wrapped, retyped, suppressed, or retried) and no further state change
happens; and for `set`, `remove`, and `upload` the cache is mutated before
the persist call completes, so the mutation is still in place after a failed
persist — there is no rollback. -/
theorem C5_persist_failure_no_rollback {ε : Type} (st : RegistryState) (p k : String)
    (v : JSONValue) (level : Level) (record : IPlugin) (bundle : Bundle) (keymap : KeyMap)
    (e : ε) (hc : getA st.plugins p = some record) (hd : record.data = some bundle)
    (hl : bundle.get level = some keymap) :
    (∀ (σ : RegistryState) (q : String),
        SettingRegistry.saveComplete σ q (Except.error e) = (σ, Except.error e)) ∧
    ((SettingRegistry.set st p k v level).1.plugins
        = setA st.plugins p
            { record with data := some (bundle.set level (some (setA keymap k v))) } ∧
      (SettingRegistry.set st p k v level).2 = SettingRegistry.SetOutcome.pendingSave p) ∧
    ((SettingRegistry.remove st p k level).1.plugins
        = setA st.plugins p
            { record with data := some (bundle.set level (some (delA keymap k))) } ∧
      (SettingRegistry.remove st p k level).2
        = SettingRegistry.RemoveOutcome.pendingSave p) ∧
    (∀ rec : IPlugin, (SettingRegistry.upload st rec).1.plugins = setA st.plugins rec.id rec) := by
  refine ⟨fun σ q => rfl, ⟨?_, ?_⟩, ⟨?_, ?_⟩, fun rec => rfl⟩ <;>
    simp [SettingRegistry.set, SettingRegistry.remove, hc, hd, hl]

/-- Witness for C5: a failed save on `stC5` returns the error string
unchanged with the state untouched, and a `set` on `stC5` leaves a pending
save after mutating the cache. -/
theorem C5_persist_failure_no_rollback_witness :
    SettingRegistry.saveComplete stC5 "p" (Except.error "disk full")
      = (stC5, Except.error "disk full") ∧
    (SettingRegistry.set stC5 "p" "k" (JSONValue.num 2) Level.user).2
      = SettingRegistry.SetOutcome.pendingSave "p" :=
  ⟨(C5_persist_failure_no_rollback stC5 "p" "k" (JSONValue.num 2) Level.user
      { id := "p", data := some { user := some [("k", JSONValue.num 1)], system := none } }
      { user := some [("k", JSONValue.num 1)], system := none }
      [("k", JSONValue.num 1)] "disk full"
      (by simp [stC5, getA]) rfl rfl).1 stC5 "p",
   (C5_persist_failure_no_rollback stC5 "p" "k" (JSONValue.num 2) Level.user
      { id := "p", data := some { user := some [("k", JSONValue.num 1)], system := none } }
      { user := some [("k", JSONValue.num 1)], system := none }
      [("k", JSONValue.num 1)] "disk full"
      (by simp [stC5, getA]) rfl rfl).2.1.2⟩

/-- Claim C6: for a plugin already cached and `reload = false`, `load`
resolves (it takes neither the fetch branch nor the gate branch, so no
datastore access occurs) with a view built from a deep copy of the cached
record merged with the metadata table as it stands at the moment of return;
in particular, after a fresh `annotate` a cached `load` still serves the old
content while its overlay already carries the new entry. -/
theorem C6_load_cached_no_fetch (st : RegistryState) (p : String) (record : IPlugin)
    (hc : getA st.plugins p = some record) :
    SettingRegistry.load st p false
      = SettingRegistry.LoadOutcome.resolved
          { plugin := p
            content := JSONExt.deepCopy record
            annots := JSONExt.deepCopy (getA st.annots p) } ∧
    (∀ (k : String) (a : Annot),
      SettingRegistry.load (SettingRegistry.annotate st p k a) p false
        = SettingRegistry.LoadOutcome.resolved
            { plugin := p
              content := JSONExt.deepCopy record
              annots := some (setA ((getA st.annots p).getD []) k a) } ∧
      getA (setA ((getA st.annots p).getD []) k a) k = some a) := by
  constructor
  · unfold SettingRegistry.load
    rw [hc]
  · intro k a
    refine ⟨?_, getA_setA_self _ _ _⟩
    unfold SettingRegistry.load
    simp [SettingRegistry.annotate, hc, getA_setA_self, JSONExt.deepCopy]

/-- Witness for C6: loading cached `"p"` from `stC6` resolves with the cached
content and the current (empty) overlay, with no datastore access. -/
theorem C6_load_cached_no_fetch_witness :
    SettingRegistry.load stC6 "p" false
      = SettingRegistry.LoadOutcome.resolved
          { plugin := "p"
            content := JSONExt.deepCopy
              { id := "p"
                data := some { user := some [("k", JSONValue.num 7)], system := none } }
            annots := JSONExt.deepCopy (getA stC6.annots "p") } :=
  (C6_load_cached_no_fetch stC6 "p"
    { id := "p", data := some { user := some [("k", JSONValue.num 7)], system := none } }
    (by simp [stC6, getA])).1

/-- Claim C7: `annotate(p, k, a)` writes `a` into the side-table entry for
`(p, k)` (creating the per-plugin table on first use), leaves the plugin
cache and the datastore reference untouched, and appends exactly one change
notification carrying `p` even when `p` is not cached; a subsequent
`load(p)` — through the fetch continuation if `p` was never loaded, or the
cached branch otherwise — returns a view whose overlay entry for `k` is
`a`. -/
theorem C7_annotate_side_table (st : RegistryState) (p k : String) (a : Annot) :
    (SettingRegistry.annotate st p k a).plugins = st.plugins ∧
    (SettingRegistry.annotate st p k a).datastore = st.datastore ∧
    (SettingRegistry.annotate st p k a).emitted = st.emitted ++ [p] ∧
    ((getA (SettingRegistry.annotate st p k a).annots p).bind (fun t => getA t k)
      = some a) ∧
    (∀ result : IPlugin,
      getA (((SettingRegistry.loadFetchContinue
          (SettingRegistry.annotate st p k a) p result).2).annots.getD []) k
        = some a) ∧
    (∀ record : IPlugin, getA st.plugins p = some record →
      SettingRegistry.load (SettingRegistry.annotate st p k a) p false
        = SettingRegistry.LoadOutcome.resolved
            { plugin := p
              content := JSONExt.deepCopy record
              annots := getA (SettingRegistry.annotate st p k a).annots p }) := by
  refine ⟨rfl, rfl, rfl, ?_, ?_, ?_⟩
  · simp [SettingRegistry.annotate, getA_setA_self]
  · intro result
    simp [SettingRegistry.loadFetchContinue, SettingRegistry.annotate, getA_setA_self,
      JSONExt.deepCopy]
  · intro record hc
    unfold SettingRegistry.load
    simp [SettingRegistry.annotate, hc, JSONExt.deepCopy]

/-- Witness for C7: annotating never-loaded `"p"` in the empty state `stC7`
emits one notification carrying `"p"`, records the entry, and the view built
by a later fetch-continuation of `load("p")` carries that entry. -/
theorem C7_annotate_side_table_witness :
    (SettingRegistry.annotate stC7 "p" "k" exampleAnnot).emitted
      = stC7.emitted ++ ["p"] ∧
    ((getA (SettingRegistry.annotate stC7 "p" "k" exampleAnnot).annots "p").bind
      (fun t => getA t "k") = some exampleAnnot) ∧
    getA (((SettingRegistry.loadFetchContinue
        (SettingRegistry.annotate stC7 "p" "k" exampleAnnot) "p"
        { id := "p", data := none }).2).annots.getD []) "k"
      = some exampleAnnot :=
  ⟨(C7_annotate_side_table stC7 "p" "k" exampleAnnot).2.2.1,
   (C7_annotate_side_table stC7 "p" "k" exampleAnnot).2.2.2.1,
   (C7_annotate_side_table stC7 "p" "k" exampleAnnot).2.2.2.2.1
     { id := "p", data := none }⟩

/-- Claim C8 (amended): `remove(p, k, level)` is a no-op success both when
`p` is not cached and when `p` is cached with a non-null bundle but no
mapping at the target level: it returns the state unchanged — so no
datastore save happens and no change notification is emitted — and
resolves.  In the cached case `get(p, k, level)` afterwards resolves with
`null`.  In the uncached case `get` instead chains into a `load`, and what
it then returns is whatever the fetched record holds for the key — `null`
only if the datastore record lacks it (see the counterexample). -/
theorem C8_remove_noop_success (st : RegistryState) (p k : String) (level : Level) :
    (getA st.plugins p = none →
      SettingRegistry.remove st p k level
        = (st, SettingRegistry.RemoveOutcome.noopResolved) ∧
      SettingRegistry.get st p k level
        = SettingRegistry.GetOutcome.loadThenRetry p k level) ∧
    (∀ (record : IPlugin) (bundle : Bundle),
      getA st.plugins p = some record → record.data = some bundle →
      bundle.get level = none →
      SettingRegistry.remove st p k level
        = (st, SettingRegistry.RemoveOutcome.noopResolved) ∧
      SettingRegistry.get st p k level
        = SettingRegistry.GetOutcome.resolved JSONValue.null) := by
  constructor
  · intro h
    constructor
    · unfold SettingRegistry.remove
      rw [h]
    · unfold SettingRegistry.get
      rw [h]
  · intro record bundle hc hd hl
    constructor
    · unfold SettingRegistry.remove
      rw [hc]
      simp [hd, hl]
    · unfold SettingRegistry.get
      rw [hc]
      simp [hd, hl, JSONExt.deepCopy]

/-- Witness for C8 (amended): removing from uncached `"p"` in `stC8` is a
no-op success; removing `("p", "k")` at the system level in `stC8b` (no
system mapping) is a no-op success and a system-level `get` resolves with
`null`. -/
theorem C8_remove_noop_success_witness :
    SettingRegistry.remove stC8 "p" "k" Level.user
      = (stC8, SettingRegistry.RemoveOutcome.noopResolved) ∧
    SettingRegistry.remove stC8b "p" "k" Level.system
      = (stC8b, SettingRegistry.RemoveOutcome.noopResolved) ∧
    SettingRegistry.get stC8b "p" "k" Level.system
      = SettingRegistry.GetOutcome.resolved JSONValue.null :=
  ⟨((C8_remove_noop_success stC8 "p" "k" Level.user).1 rfl).1,
   ((C8_remove_noop_success stC8b "p" "k" Level.system).2
      { id := "p", data := some { user := some [("k", JSONValue.num 3)], system := none } }
      { user := some [("k", JSONValue.num 3)], system := none }
      (by simp [stC8b, getA]) rfl rfl).1,
   ((C8_remove_noop_success stC8b "p" "k" Level.system).2
      { id := "p", data := some { user := some [("k", JSONValue.num 3)], system := none } }
      { user := some [("k", JSONValue.num 3)], system := none }
      (by simp [stC8b, getA]) rfl rfl).2⟩

/-- Counterexample to C8's final clause as stated: with `"p"` not cached and
the datastore holding `{"k": "x"}` for it, `remove("p", "k", user)` is a
no-op success, but `get("p", "k", user)` afterwards does not return `null`:
it chains into a `load`, and once the fetch completes the retried `get`
resolves with `"x"`. -/
theorem C8_counterexample :
    SettingRegistry.remove stC8 "p" "k" Level.user
      = (stC8, SettingRegistry.RemoveOutcome.noopResolved) ∧
    SettingRegistry.get stC8 "p" "k" Level.user
      = SettingRegistry.GetOutcome.loadThenRetry "p" "k" Level.user ∧
    SettingRegistry.get (SettingRegistry.loadFetchContinue stC8 "p" recC8).1 "p" "k" Level.user
      = SettingRegistry.GetOutcome.resolved (JSONValue.str "x") ∧
    SettingRegistry.GetOutcome.resolved (JSONValue.str "x")
      ≠ SettingRegistry.GetOutcome.resolved JSONValue.null := by
  refine ⟨rfl, rfl, rfl, ?_⟩
  simp

/-- Claim C9 (amended): the change channel carries exactly one new emission,
the affected plugin id, after a `set` whose save succeeds, after a non-no-op
`remove` whose save succeeds, after an `upload` whose save succeeds, and
immediately after every `annotate`: a subscriber current at call time
observes exactly `[p]`, and a subscriber attached after the emission
observes nothing (no replay or history).  A no-op `remove` resolves
successfully without any emission (see the counterexample), and a `set` or
`remove` emits nothing before its save is acknowledged. -/
theorem C9_change_channel (st : RegistryState) (p k : String) (v : JSONValue)
    (level : Level) (a : Annot) (record : IPlugin) (bundle : Bundle) (keymap : KeyMap)
    (hc : getA st.plugins p = some record) (hd : record.data = some bundle)
    (hl : bundle.get level = some keymap) :
    (SettingRegistry.set st p k v level).1.emitted = st.emitted ∧
    SettingRegistry.notificationsSince
        (SettingRegistry.saveComplete (SettingRegistry.set st p k v level).1 p
          (Except.ok () : Except String Unit)).1 st.emitted.length
      = [p] ∧
    SettingRegistry.notificationsSince
        (SettingRegistry.saveComplete (SettingRegistry.set st p k v level).1 p
          (Except.ok () : Except String Unit)).1
        (SettingRegistry.saveComplete (SettingRegistry.set st p k v level).1 p
          (Except.ok () : Except String Unit)).1.emitted.length
      = [] ∧
    (SettingRegistry.remove st p k level).1.emitted = st.emitted ∧
    SettingRegistry.notificationsSince
        (SettingRegistry.saveComplete (SettingRegistry.remove st p k level).1 p
          (Except.ok () : Except String Unit)).1 st.emitted.length
      = [p] ∧
    SettingRegistry.notificationsSince (SettingRegistry.annotate st p k a)
        st.emitted.length
      = [p] ∧
    (∀ rec : IPlugin,
      SettingRegistry.notificationsSince
          (SettingRegistry.saveComplete (SettingRegistry.upload st rec).1 rec.id
            (Except.ok () : Except String Unit)).1 st.emitted.length
        = [rec.id]) := by
  refine ⟨?_, ?_, ?_, ?_, ?_, ?_, ?_⟩ <;>
    simp [SettingRegistry.set, SettingRegistry.remove, SettingRegistry.annotate,
      SettingRegistry.upload, SettingRegistry.saveComplete,
      SettingRegistry.notificationsSince, hc, hd, hl, drop_length_append]

/-- Witness for C9 (amended): on `stC9b`, a `set` followed by a successful
save shows exactly one notification `["p"]` to a subscriber current at call
time and none to one attached afterwards, and `annotate` emits exactly
`["p"]`. -/
theorem C9_change_channel_witness :
    SettingRegistry.notificationsSince
        (SettingRegistry.saveComplete
          (SettingRegistry.set stC9b "p" "k" (JSONValue.num 2) Level.user).1 "p"
          (Except.ok () : Except String Unit)).1 stC9b.emitted.length
      = ["p"] ∧
    SettingRegistry.notificationsSince
        (SettingRegistry.saveComplete
          (SettingRegistry.set stC9b "p" "k" (JSONValue.num 2) Level.user).1 "p"
          (Except.ok () : Except String Unit)).1
        (SettingRegistry.saveComplete
          (SettingRegistry.set stC9b "p" "k" (JSONValue.num 2) Level.user).1 "p"
          (Except.ok () : Except String Unit)).1.emitted.length
      = [] ∧
    SettingRegistry.notificationsSince
        (SettingRegistry.annotate stC9b "p" "k" exampleAnnot) stC9b.emitted.length
      = ["p"] :=
  ⟨(C9_change_channel stC9b "p" "k" (JSONValue.num 2) Level.user exampleAnnot
      { id := "p", data := some { user := some [("k", JSONValue.num 1)], system := none } }
      { user := some [("k", JSONValue.num 1)], system := none }
      [("k", JSONValue.num 1)]
      (by simp [stC9b, getA]) rfl rfl).2.1,
   (C9_change_channel stC9b "p" "k" (JSONValue.num 2) Level.user exampleAnnot
      { id := "p", data := some { user := some [("k", JSONValue.num 1)], system := none } }
      { user := some [("k", JSONValue.num 1)], system := none }
      [("k", JSONValue.num 1)]
      (by simp [stC9b, getA]) rfl rfl).2.2.1,
   (C9_change_channel stC9b "p" "k" (JSONValue.num 2) Level.user exampleAnnot
      { id := "p", data := some { user := some [("k", JSONValue.num 1)], system := none } }
      { user := some [("k", JSONValue.num 1)], system := none }
      [("k", JSONValue.num 1)]
      (by simp [stC9b, getA]) rfl rfl).2.2.2.2.2.1⟩

/-- Counterexample to C9 as stated: on `stC9` (plugin `"p"` not cached) the
call `remove("p", "k", user)` resolves successfully, yet a subscriber
current at call time observes no notification at all — a successful
`remove` does not always broadcast the affected plugin id. -/
theorem C9_counterexample :
    SettingRegistry.remove stC9 "p" "k" Level.user
      = (stC9, SettingRegistry.RemoveOutcome.noopResolved) ∧
    SettingRegistry.notificationsSince
        (SettingRegistry.remove stC9 "p" "k" Level.user).1 stC9.emitted.length
      = [] := by
  exact ⟨rfl, rfl⟩

/-- Claim C10: when a cached record's `data` field is null (a shape the
record type permits), both `set` and `remove` throw a `TypeError` when
dereferencing the null bundle at `bundle[level]` — `set` does not create the
level mapping and `remove` does not return a no-op success; the state is
unchanged in both cases. -/
theorem C10_null_data_type_error (st : RegistryState) (p k : String) (v : JSONValue)
    (level : Level) (record : IPlugin)
    (hc : getA st.plugins p = some record) (hd : record.data = none) :
    SettingRegistry.set st p k v level = (st, SettingRegistry.SetOutcome.typeError) ∧
    SettingRegistry.remove st p k level = (st, SettingRegistry.RemoveOutcome.typeError) := by
  constructor
  · unfold SettingRegistry.set
    rw [hc]
    simp [hd]
  · unfold SettingRegistry.remove
    rw [hc]
    simp [hd]

/-- Witness for C10: in `stC10`, whose record for `"p"` has a null `data`
bundle, both `set` and `remove` throw a `TypeError`. -/
theorem C10_null_data_type_error_witness :
    SettingRegistry.set stC10 "p" "k" (JSONValue.num 1) Level.user
      = (stC10, SettingRegistry.SetOutcome.typeError) ∧
    SettingRegistry.remove stC10 "p" "k" Level.user
      = (stC10, SettingRegistry.RemoveOutcome.typeError) :=
  C10_null_data_type_error stC10 "p" "k" (JSONValue.num 1) Level.user
    { id := "p", data := none }
    (by simp [stC10, getA]) rfl
